import Mathlib

/-!
Verification of the PlantUML MCP app's diagram synchronization and
interaction engine.  The definitions below are a shallow embedding of the
TypeScript sources (`src/ui/src/App.tsx`, `src/ui/src/engine/render.ts`,
`src/ui/src/sync/syncLayer.ts`, `src/ui/src/components/DiagramView.tsx`):
pure functions become Lean functions, React/ref state becomes explicit
state records, asynchronous completions become explicit step functions
taking the captured request version, and timers become explicit pending
entries processed by an event-trace interpreter.
-/

namespace PlantUml

/-- Substring occurrence over character lists, used to model JavaScript's
`String.prototype.includes`. -/
def listContains (pat : List Char) : List Char → Bool
  | [] => pat.isPrefixOf []
  | c :: rest => pat.isPrefixOf (c :: rest) || listContains pat rest

/-- JavaScript `String.prototype.includes`: `s` contains `pat` as a
substring. -/
def jsIncludes (s pat : String) : Bool :=
  listContains pat.data s.data

/-- JavaScript `String.prototype.endsWith`. -/
def jsEndsWith (s suffix : String) : Bool :=
  suffix.data.isSuffixOf s.data

/-- JavaScript `String.prototype.toLowerCase` (ASCII range, which covers
every pattern the app compares case-insensitively). -/
def jsToLower (s : String) : String :=
  String.mk (s.data.map Char.toLower)

/-- JavaScript `String.prototype.trimEnd`: drop trailing whitespace. -/
def jsTrimEnd (s : String) : String :=
  String.mk (s.data.reverse.dropWhile Char.isWhitespace).reverse

/-- JavaScript `String.prototype.trim`: drop leading and trailing
whitespace. -/
def jsTrim (s : String) : String :=
  String.mk ((s.data.dropWhile Char.isWhitespace).reverse.dropWhile Char.isWhitespace).reverse

/-- JavaScript `String.prototype.slice(0, n)`: the first `n` characters. -/
def jsSlice (s : String) (n : Nat) : String :=
  String.mk (s.data.take n)

/-- Definition `isSvgError` from `src/ui/src/engine/render.ts`: an SVG is error-bearing
when it contains one of the known error / deprecation marker phrases. -/
def isSvgError (svg : String) : Bool :=
  jsIncludes svg "Syntax Error" || jsIncludes svg "ErrorURLDecoder" ||
  jsIncludes svg "[From string (line" || jsIncludes svg "syntax is deprecated"

/-- Definition `renderPlantUml` from `src/ui/src/engine/render.ts`, up to the point the
network request is issued: an input whose trimmed form is empty throws
`Empty PlantUML code`; otherwise the request URL is built from the encoded
code.  The `plantuml-encoder` dependency is abstracted as `encode`. -/
def renderPlantUmlRequest (encode : String → String) (code : String) :
    Except String String :=
  if jsTrim code = "" then Except.error "Empty PlantUML code"
  else Except.ok ("https://www.plantuml.com/plantuml/svg/" ++ encode code)

/-- The render-related shared state of `App.tsx`: the `svgContent`,
`renderLoading`, `renderError` React states, the `renderVersion` ref,
the `errorAlreadySent` ref, and the pending auto-fix request scheduled by
`scheduleErrorAutoFix` (represented by its `(errorMsg, code)` arguments). -/
structure RenderState where
  svgContent : Option String
  renderError : Option String
  renderLoading : Bool
  renderVersion : Nat
  errorAlreadySent : Option String
  autoFixPending : Option (String × String)
deriving DecidableEq, Repr

/-- The synchronous prefix of `doRender` (`App.tsx` lines 97–102): allocate
`version = ++renderVersion.current`; for a non-streaming render also set
`renderLoading` and clear `renderError`.  Returns the new state and the
captured version. -/
def renderStart (s : RenderState) (isStreaming : Bool) : RenderState × Nat :=
  let version := s.renderVersion + 1
  let s1 := { s with renderVersion := version }
  let s2 := if isStreaming then s1
            else { s1 with renderLoading := true, renderError := none }
  (s2, version)

/-- The completion of `doRender`'s awaited `renderPlantUml` call
(`App.tsx` lines 116–148), given the version captured at start.  `result`
is `.ok svg` when the backend call resolved and `.error msg` when it threw;
`code` is the (pre-repair) text captured by the closure.  A completion whose
captured version differs from the current counter returns the state
unchanged (the `finally` clause is guarded by the same version test). -/
def renderComplete (s : RenderState) (version : Nat) (isStreaming : Bool)
    (code : String) (result : Except String String) : RenderState :=
  match result with
  | .ok svg =>
    if version ≠ s.renderVersion then s
    else if isStreaming then
      -- During streaming: only update SVG if it is not an error
      if isSvgError svg then s
      else { s with svgContent := some svg, renderError := none }
    else
      let s1 := { s with svgContent := some svg }
      let s2 :=
        if isSvgError svg then
          { s1 with renderError := some "PlantUML syntax error",
                    autoFixPending :=
                      some ("PlantUML syntax error — the diagram SVG shows an error", code) }
        else
          { s1 with renderError := none, errorAlreadySent := none }
      { s2 with renderLoading := false }
  | .error msg =>
    if version ≠ s.renderVersion then s
    else if isStreaming then s
    else { s with renderError := some msg, renderLoading := false }

/-- JavaScript `\w` (ASCII word character), used by the `@start(\w+)` regex. -/
def isWordChar (c : Char) : Bool :=
  c.isAlphanum || c = '_'

/-- Case-insensitive prefix match: if `pat` is a case-insensitive prefix of
the input, return the remaining characters. -/
def stripCI : List Char → List Char → Option (List Char)
  | [], s => some s
  | _ :: _, [] => none
  | p :: ps, c :: cs => if p.toLower = c.toLower then stripCI ps cs else none

/-- The first match of the regex `/@start(\w+)/i`: scan left to right for a
case-insensitive occurrence of `@start` followed by at least one word
character, and return the captured (maximal) word-character run. -/
def findStart : List Char → Option (List Char)
  | [] => none
  | c :: rest =>
    match stripCI "@start".toList (c :: rest) with
    | some after =>
      let w := after.takeWhile isWordChar
      if w.isEmpty then findStart rest else some w
    | none => findStart rest

/-- The alternatives of the closing-marker regex
`/@end(uml|ditaa|salt|gantt|mindmap|wbs|json|yaml|nwdiag|regex)\s*$/i`. -/
def closeTags : List String :=
  ["uml", "ditaa", "salt", "gantt", "mindmap", "wbs", "json", "yaml", "nwdiag", "regex"]

/-- Whether the closing-marker regex matches: on already right-trimmed text
the `\s*$` part is vacuous, so this is a case-insensitive suffix test
against `@end` plus one of the recognized tags. -/
def endsWithCloseMarker (s : String) : Bool :=
  closeTags.any fun t => jsEndsWith (jsToLower s) ("@end" ++ t)

/-- The streaming repair step of `doRender` (`App.tsx` lines 104–114):
right-trim the code; if it does not end with a recognized closing marker,
append a closing tag paired with the first `@start` opener found (or the
generic `@enduml` when there is none). -/
def streamRepair (code : String) : String :=
  let trimmed := jsTrimEnd code
  if endsWithCloseMarker trimmed then code
  else
    let endTag :=
      match findStart trimmed.toList with
      | some w => "@end" ++ String.mk w
      | none => "@enduml"
    trimmed ++ "\n" ++ endTag

/-- The code actually handed to the rendering backend by `doRender`:
streaming renders go through `streamRepair`, non-streaming renders are sent
verbatim. -/
def renderCodeFor (code : String) (isStreaming : Bool) : String :=
  if isStreaming then streamRepair code else code

/-- The debounce timer of `scheduleRender` (`App.tsx` lines 152–155): at
most one pending callback, holding its fire time and the captured code. -/
structure DebounceState where
  pending : Option (Nat × String)
deriving DecidableEq, Repr

/-- Definition `scheduleRender`: clear any pending timer and start a fresh 800 ms one
firing `doRender` with the given code. -/
def scheduleRender (_d : DebounceState) (now : Nat) (code : String) : DebounceState :=
  { pending := some (now + 800, code) }

/-- One run of the render-scheduling `useEffect` on `plantUmlCode`
(`App.tsx` lines 211–218): the previous effect's cleanup clears any pending
timer, then the body calls `scheduleRender` only when the code does not
trim to empty (`if (plantUmlCode.trim())`). -/
def renderEffect (_d : DebounceState) (now : Nat) (code : String) : DebounceState :=
  let cleared : DebounceState := { pending := none }
  if jsTrim code ≠ "" then scheduleRender cleared now code else cleared

/-- Event-loop step: before handling an event at time `t`, a pending timer
whose fire time has been reached fires (issuing its render). -/
def fireIfDue (d : DebounceState) (t : Nat) : DebounceState × List (Nat × String) :=
  match d.pending with
  | some (ft, c) => if ft ≤ t then ({ pending := none }, [(ft, c)]) else (d, [])
  | none => (d, [])

/-- Process a list of `(time, code)` edit events: each event first lets a
due timer fire, then runs the render-scheduling effect with its own code
(cleanup clearing the timer, the trim guard deciding whether
`scheduleRender` re-arms it).  Returns the final timer state and all
renders issued. -/
def processEdits : DebounceState → List (Nat × String) → DebounceState × List (Nat × String)
  | d, [] => (d, [])
  | d, (t, code) :: rest =>
    let fd := fireIfDue d t
    let d2 := renderEffect fd.1 t code
    let pr := processEdits d2 rest
    (pr.1, fd.2 ++ pr.2)

/-- The timer state after running just the scheduling effect for each
event in turn (no firing). -/
def finalDebounce (d : DebounceState) : List (Nat × String) → DebounceState
  | [] => d
  | (t, c) :: rest => finalDebounce (renderEffect d t c) rest

/-- A pending timer (if any) is not yet due at the first event. -/
def notDueAt (d : DebounceState) : List (Nat × String) → Bool
  | [] => true
  | (t2, _) :: _ =>
    match d.pending with
    | some (ft, _) => decide (t2 < ft)
    | none => true

/-- Consecutive events of the list are strictly less than 800 ms apart. -/
def pairsClose : List (Nat × String) → Bool
  | [] => true
  | [_] => true
  | (t1, _) :: (t2, c2) :: rest => decide (t2 < t1 + 800) && pairsClose ((t2, c2) :: rest)

/-- After quiescence, the remaining pending timer fires. -/
def flushDebounce (d : DebounceState) : List (Nat × String) :=
  match d.pending with
  | some (ft, c) => [(ft, c)]
  | none => []

/-- All renders issued for a sequence of edit events starting from an idle
timer, including the final fire after quiescence. -/
def runEdits (es : List (Nat × String)) : List (Nat × String) :=
  let pr := processEdits { pending := none } es
  pr.2 ++ flushDebounce pr.1

/-- Consecutive events each arrive strictly less than 800 ms after the
previous one (`t` is the time of the preceding event). -/
def closeFrom (t : Nat) : List (Nat × String) → Bool
  | [] => true
  | (t2, _) :: rest => decide (t2 < t + 800) && closeFrom t2 rest

/-- The time and code of the last event (with the given defaults when the
list is empty). -/
def lastEdit (t : Nat) (c : String) : List (Nat × String) → Nat × String
  | [] => (t, c)
  | (t2, c2) :: rest => lastEdit t2 c2 rest

/-- A change-log entry (`src/ui/src/sync/changeLog.ts`): a code edit with a
summary, or a diagram-type change. -/
inductive Change where
  | edit (summary : String)
  | typeChange (oldType newType : String)
deriving DecidableEq, Repr

namespace ChangeLog

/-- Method `ChangeLog.add`: append with coalescing.  An `edit` following an `edit`
replaces it; a `typeChange` following a `typeChange` replaces it but keeps
the earlier entry's `oldType`; anything else is pushed. -/
def add (changes : List Change) (c : Change) : List Change :=
  match c, changes.getLast? with
  | .edit s, some (.edit _) => changes.dropLast ++ [Change.edit s]
  | .typeChange _ newT, some (.typeChange lastOld _) =>
      changes.dropLast ++ [Change.typeChange lastOld newT]
  | _, _ => changes ++ [c]

/-- One numbered line of `ChangeLog.serialize` (`i` is the zero-based
position). -/
def line (i : Nat) : Change → String
  | .edit s => toString (i + 1) ++ ". Edited diagram code: " ++ s
  | .typeChange o n => toString (i + 1) ++ ". Changed diagram type from " ++ o ++ " to " ++ n

/-- Method `ChangeLog.serialize`: the empty log gives the empty string, otherwise
the numbered entries joined with newlines. -/
def serialize (changes : List Change) : String :=
  if changes.length = 0 then ""
  else String.intercalate "\n" (changes.enum.map fun p => line p.1 p.2)

end ChangeLog

/-- The fingerprint recorded in `errorAlreadySent`
(`App.tsx` line 194): the error message and the first 200 characters of the
code, joined by `::`. -/
def errorKey (errorMsg code : String) : String :=
  errorMsg ++ "::" ++ jsSlice code 200

/-- The natural-language fix-request message sent to the agent
(`App.tsx` lines 198–204). -/
def fixRequestText (errorMsg code : String) : String :=
  "The PlantUML diagram has errors. Please fix and regenerate.\n\nError: "
    ++ errorMsg ++ "\n\nCurrent code:\n```plantuml\n" ++ code ++ "\n```"

/-- The `App` component state touched by the tool-input handler, the manual
edit handler and the auto-fix callback: `plantUmlCode`, the write-only
partial-stream buffer, the `streaming` flag, the selection, the change log
with its displayed count, the `isToolInputError` flag and the
`errorAlreadySent` fingerprint ref. -/
structure AppState where
  plantUmlCode : String
  pendingStream : Option String
  streaming : Bool
  selectedElements : List String
  changeLog : List Change
  changeCount : Nat
  isToolInputError : Bool
  errorAlreadySent : Option String
deriving DecidableEq, Repr

/-- The `ontoolinput` handler (`App.tsx` lines 258–271): flag the document
as agent-originated, replace the code, drop the partial buffer, stop
streaming, and clear the change log and its count. -/
def ontoolinput (s : AppState) (code : String) : AppState :=
  { s with isToolInputError := true,
           plantUmlCode := code,
           pendingStream := none,
           streaming := false,
           changeLog := [],
           changeCount := 0 }

/-- Handler `handleCodeChange` (`App.tsx` lines 341–350): store the new code, clear
the agent-originated flag, and record a coalesced `edit` entry. -/
def handleCodeChange (s : AppState) (newCode : String) : AppState :=
  let log := ChangeLog.add s.changeLog (Change.edit "manual code edit")
  { s with plantUmlCode := newCode,
           isToolInputError := false,
           changeLog := log,
           changeCount := log.length }

/-- Definition `scheduleErrorAutoFix` (`App.tsx` lines 186–208), scheduling part:
clear any pending 3 s timer and start a fresh one capturing the message and
code, so at most one callback is ever pending. -/
def scheduleErrorAutoFix (_pending : Option (String × String)) (errorMsg code : String) :
    Option (String × String) :=
  some (errorMsg, code)

/-- The body of the `scheduleErrorAutoFix` timer callback: bail out when
the app is not connected, when the document is no longer agent-originated,
or when the fingerprint equals the last one sent; otherwise record the
fingerprint and dispatch the fix-request message. -/
def autoFixFire (appConnected : Bool) (s : AppState) (errorMsg code : String) :
    AppState × Option String :=
  if !appConnected then (s, none)
  else if !s.isToolInputError then (s, none)
  else
    let key := errorKey errorMsg code
    if s.errorAlreadySent = some key then (s, none)
    else ({ s with errorAlreadySent := some key }, some (fixRequestText errorMsg code))

/-- Definition `toggleSelectionMode` (`DiagramView.tsx` lines 280–285): flip the mode;
when leaving selection mode, report the empty selection. -/
def toggleSelectionMode (selectionMode : Bool) (selected : List String) :
    Bool × List String :=
  (!selectionMode, if selectionMode then [] else selected)

/-- The viewport transform of `DiagramView` (`transformOrigin: 0 0`,
screen = svg × scale + pan). -/
structure Viewport where
  scale : ℚ
  panX : ℚ
  panY : ℚ
deriving DecidableEq, Repr

/-- The clamp `Math.max(0.05, Math.min(5, x))` applied by both zoom paths. -/
def clampScale (x : ℚ) : ℚ :=
  max (1 / 20 : ℚ) (min 5 x)

/-- Definition `zoomFromCenter` (`DiagramView.tsx` lines 223–240): clamp the scaled
factor and move the pan so the viewport center `(cx, cy)` stays fixed. -/
def zoomFromCenter (v : Viewport) (factor cx cy : ℚ) : Viewport :=
  let newScale := clampScale (v.scale * factor)
  let ratio := newScale / v.scale
  { scale := newScale,
    panX := cx - (cx - v.panX) * ratio,
    panY := cy - (cy - v.panY) * ratio }

/-- Definition `handleWheel` (`DiagramView.tsx` lines 292–311): factor 0.9 on scroll
down, 1.1 on scroll up, zoom centered on the mouse position. -/
def handleWheel (v : Viewport) (deltaY mouseX mouseY : ℚ) : Viewport :=
  let factor : ℚ := if deltaY > 0 then 9 / 10 else 11 / 10
  let newScale := clampScale (v.scale * factor)
  let ratio := newScale / v.scale
  { scale := newScale,
    panX := mouseX - (mouseX - v.panX) * ratio,
    panY := mouseY - (mouseY - v.panY) * ratio }

/-- Definition `fitToView` (`DiagramView.tsx` lines 196–220): with natural size
`(w, h)` and viewport size `(vw, vh)` (each guarded against zero), set the
scale to `min((vw-48)/w, (vh-48)/h, 1)` and center the content.  Note the
result is not clamped from below. -/
def fitToView (v : Viewport) (vw vh w h : ℚ) : Viewport :=
  if w = 0 ∨ h = 0 then v
  else if vw = 0 ∨ vh = 0 then v
  else
    let fitScale := min (min ((vw - 48) / w) ((vh - 48) / h)) 1
    { scale := fitScale,
      panX := (vw - w * fitScale) / 2,
      panY := (vh - h * fitScale) / 2 }

/-- The selection part of the sync-layer messages
(`src/ui/src/sync/syncLayer.ts` lines 61–63): the joined element list, or
`none` when the selection is empty. -/
def selectionText (selectedElements : List String) : String :=
  if selectedElements.length > 0 then String.intercalate ", " selectedElements
  else "none"

/-- The message text built by `sendToAgent`
(`src/ui/src/sync/syncLayer.ts` lines 60–77): the serialized delta when
non-empty, then the selection, a blank line, and the full code. -/
def sendToAgentText (log : List Change) (plantUmlCode : String)
    (selectedElements : List String) (diagramType : String) : String :=
  let delta := ChangeLog.serialize log
  let parts :=
    (if delta ≠ "" then ["User edited the diagram:", delta] else []) ++
    ["Currently selected: " ++ selectionText selectedElements, "",
     "Full PlantUML code (" ++ diagramType ++ "):", plantUmlCode]
  String.intercalate "\n" parts

/-- Observable outcome of one `sendToAgent` call: the change log afterwards,
the message the channel accepted (if any), and whether an exception escaped
to the caller. -/
structure SendOutcome where
  log : List Change
  sent : Option String
  raised : Bool
deriving DecidableEq, Repr

/-- Definition `sendToAgent` (`src/ui/src/sync/syncLayer.ts` lines 51–89): with no app
the call returns at once (log kept); otherwise the message is sent inside a
`try`/`catch` whose failure (`channelThrows`) is swallowed, and the log is
cleared afterwards in either case. -/
def sendToAgent (appConnected : Bool) (channelThrows : Bool) (log : List Change)
    (plantUmlCode : String) (selectedElements : List String) (diagramType : String) :
    SendOutcome :=
  if !appConnected then { log := log, sent := none, raised := false }
  else
    let text := sendToAgentText log plantUmlCode selectedElements diagramType
    { log := [],
      sent := if channelThrows then none else some text,
      raised := false }

/-! ## Theorems -/

theorem renderStart_version (s : RenderState) (b : Bool) :
    ((renderStart s b).1.renderVersion = s.renderVersion + 1)
    ∧ ((renderStart s b).2 = s.renderVersion + 1) := by
  cases b <;> simp [renderStart]

theorem renderComplete_version (s : RenderState) (v : Nat) (b : Bool)
    (c : String) (r : Except String String) :
    (renderComplete s v b c r).renderVersion = s.renderVersion := by
  cases r with
  | ok svg =>
      by_cases hv : v ≠ s.renderVersion <;>
        by_cases hb : b <;>
          by_cases he : isSvgError svg <;>
            simp [renderComplete, hv, hb, he]
  | error msg =>
      by_cases hv : v ≠ s.renderVersion <;>
        by_cases hb : b <;>
          simp [renderComplete, hv, hb]

theorem renderComplete_stale (s : RenderState) (v : Nat) (b : Bool)
    (c : String) (r : Except String String) (h : v ≠ s.renderVersion) :
    renderComplete s v b c r = s := by
  cases r <;> simp [renderComplete, h]

/-- C1: `requestVersion` increments on every render attempt and is the sole
arbiter of staleness.  For two renders issued in order (the first capturing
a strictly smaller version), a completion of the first arriving after the
second's completion leaves the state exactly as the second's completion
left it; in general any completion whose captured version differs from the
current counter returns the state unchanged. -/
theorem C1_stale_response_discarded (s0 : RenderState) (b1 b2 : Bool)
    (codeA codeB : String) (r1 r2 : Except String String) :
    (renderStart s0 b1).2 < (renderStart (renderStart s0 b1).1 b2).2
    ∧ renderComplete
        (renderComplete (renderStart (renderStart s0 b1).1 b2).1
          (renderStart (renderStart s0 b1).1 b2).2 b2 codeB r2)
        (renderStart s0 b1).2 b1 codeA r1
      = renderComplete (renderStart (renderStart s0 b1).1 b2).1
          (renderStart (renderStart s0 b1).1 b2).2 b2 codeB r2
    ∧ ∀ (s : RenderState) (v : Nat) (b : Bool) (c : String)
        (r : Except String String),
        v ≠ s.renderVersion → renderComplete s v b c r = s := by
  have h1 := renderStart_version s0 b1
  have h2 := renderStart_version (renderStart s0 b1).1 b2
  refine ⟨?_, ?_, fun s v b c r h => renderComplete_stale s v b c r h⟩
  · rw [h1.2, h2.2, h1.1]; omega
  · apply renderComplete_stale
    rw [renderComplete_version, h2.1, h1.1, h1.2]
    omega

/-- Witness for C1: a completion carrying captured version 3 against a
state whose counter is 5 is discarded without mutating any state. -/
theorem C1_witness :
    renderComplete ⟨none, none, false, 5, none, none⟩ 3 false "x" (Except.ok "svg")
      = ⟨none, none, false, 5, none, none⟩ :=
  (C1_stale_response_discarded ⟨none, none, false, 0, none, none⟩ false false
      "a" "b" (Except.ok "x") (Except.ok "y")).2.2
    ⟨none, none, false, 5, none, none⟩ 3 false "x" (Except.ok "svg") (by decide)

/-- C2: a streaming render whose backend response is error-bearing, or whose
backend call throws, leaves the whole render state exactly as `renderStart`
left it — and streaming `renderStart` does not touch `svgContent` or
`renderError`, so the previously displayed output and error survive; only a
non-error streaming response replaces the SVG and clears the error. -/
theorem C2_streaming_error_ignored (s0 : RenderState) (code svg msg : String)
    (herr : isSvgError svg = true) :
    renderComplete (renderStart s0 true).1 (renderStart s0 true).2 true code
        (Except.ok svg) = (renderStart s0 true).1
    ∧ renderComplete (renderStart s0 true).1 (renderStart s0 true).2 true code
        (Except.error msg) = (renderStart s0 true).1
    ∧ (renderStart s0 true).1.svgContent = s0.svgContent
    ∧ (renderStart s0 true).1.renderError = s0.renderError
    ∧ (renderStart s0 true).1.renderLoading = s0.renderLoading
    ∧ ∀ good : String, isSvgError good = false →
        (renderComplete (renderStart s0 true).1 (renderStart s0 true).2 true
            code (Except.ok good)).svgContent = some good
        ∧ (renderComplete (renderStart s0 true).1 (renderStart s0 true).2 true
            code (Except.ok good)).renderError = none := by
  refine ⟨?_, ?_, ?_, ?_, ?_, ?_⟩
  · simp [renderStart, renderComplete, herr]
  · simp [renderStart, renderComplete]
  · simp [renderStart]
  · simp [renderStart]
  · simp [renderStart]
  · intro good hgood
    constructor <;> simp [renderStart, renderComplete, hgood]

/-- Witness for C2 at a concrete state holding a previous good SVG and no
error: the error-bearing streaming response leaves the state as started. -/
theorem C2_witness :
    renderComplete
        (renderStart ⟨some "<svg>old</svg>", none, false, 7, none, none⟩ true).1
        (renderStart ⟨some "<svg>old</svg>", none, false, 7, none, none⟩ true).2
        true "@startuml" (Except.ok "Syntax Error")
      = (renderStart ⟨some "<svg>old</svg>", none, false, 7, none, none⟩ true).1 :=
  (C2_streaming_error_ignored ⟨some "<svg>old</svg>", none, false, 7, none, none⟩
    "@startuml" "Syntax Error" "fetch failed" (by decide)).1

theorem renderEffect_pending (d : DebounceState) (t : Nat) (c : String) :
    renderEffect d t c
      = { pending := if jsTrim c = "" then none else some (t + 800, c) } := by
  by_cases h : jsTrim c = "" <;> simp [renderEffect, scheduleRender, h]

theorem pairsClose_tail {e : Nat × String} {l : List (Nat × String)}
    (h : pairsClose (e :: l) = true) : pairsClose l = true := by
  match e, l with
  | _, [] => rfl
  | (t1, c1), (t2, c2) :: r =>
      simp only [pairsClose, Bool.and_eq_true] at h
      exact h.2

theorem closeFrom_pairsClose (rest : List (Nat × String)) :
    ∀ (t : Nat) (c : String), closeFrom t rest = true →
    pairsClose ((t, c) :: rest) = true := by
  induction rest with
  | nil => intro t c _; rfl
  | cons e r ih =>
    intro t c h
    obtain ⟨t2, c2⟩ := e
    simp only [closeFrom, Bool.and_eq_true, decide_eq_true_eq] at h
    simp only [pairsClose, Bool.and_eq_true, decide_eq_true_eq]
    exact ⟨h.1, by simpa using ih t2 c2 h.2⟩

theorem processEdits_quiet (es : List (Nat × String)) :
    ∀ d : DebounceState, notDueAt d es = true → pairsClose es = true →
    processEdits d es = (finalDebounce d es, []) := by
  induction es with
  | nil => intro d _ _; rfl
  | cons e rest ih =>
    intro d hnd hpc
    obtain ⟨t2, c2⟩ := e
    have hfire : fireIfDue d t2 = (d, []) := by
      match hd : d.pending with
      | none => simp [fireIfDue, hd]
      | some (ft, cf) =>
          have hlt : t2 < ft := by
            simpa [notDueAt, hd] using hnd
          simp [fireIfDue, hd, Nat.not_le.mpr hlt]
    have hnd2 : notDueAt (renderEffect d t2 c2) rest = true := by
      cases rest with
      | nil => rfl
      | cons e2 r2 =>
        obtain ⟨t3, c3⟩ := e2
        have hlt3 : t3 < t2 + 800 := by
          simp only [pairsClose, Bool.and_eq_true, decide_eq_true_eq] at hpc
          exact hpc.1
        rw [renderEffect_pending]
        by_cases hc : jsTrim c2 = "" <;> simp [notDueAt, hc, hlt3]
    simp only [processEdits, hfire]
    rw [ih (renderEffect d t2 c2) hnd2 (pairsClose_tail hpc)]
    simp [finalDebounce]

theorem finalDebounce_eq (es : List (Nat × String)) :
    ∀ (t : Nat) (c : String),
    finalDebounce { pending := if jsTrim c = "" then none else some (t + 800, c) } es
      = { pending := if jsTrim (lastEdit t c es).2 = "" then none
                     else some ((lastEdit t c es).1 + 800, (lastEdit t c es).2) } := by
  induction es with
  | nil => intro t c; rfl
  | cons e rest ih =>
    intro t c
    obtain ⟨t2, c2⟩ := e
    simp only [finalDebounce, lastEdit]
    rw [renderEffect_pending]
    exact ih t2 c2

/-- C3 counterexample: a burst of two edits 500 ms apart whose last edit is
whitespace-only issues zero renders, not exactly one — the effect cleanup
clears the pending timer and the `if (plantUmlCode.trim())` guard prevents
rescheduling. -/
theorem C3_counterexample :
    closeFrom 0 [(500, "  ")] = true
    ∧ runEdits [(0, "@startuml"), (500, "  ")] = []
    ∧ ([] : List (Nat × String)).length ≠ 1 := by
  refine ⟨by decide, by decide, by decide⟩

/-- C3 (amended): for a burst of edit events each arriving strictly less
than 800 ms after the previous one, starting from an idle debounce timer,
at most one render is issued — exactly one, fired 800 ms after the last
edit with the last edit's text, when that text does not trim to empty, and
none when it does (each edit first cancels the pending timer; the trim
guard then decides whether a fresh 800 ms timer is started). -/
theorem C3_debounce_amended (t0 : Nat) (c0 : String)
    (rest : List (Nat × String)) (h : closeFrom t0 rest = true) :
    runEdits ((t0, c0) :: rest)
      = if jsTrim (lastEdit t0 c0 rest).2 = "" then []
        else [((lastEdit t0 c0 rest).1 + 800, (lastEdit t0 c0 rest).2)] := by
  have hq := processEdits_quiet ((t0, c0) :: rest) { pending := none } rfl
    (closeFrom_pairsClose rest t0 c0 h)
  simp only [runEdits, hq]
  simp only [finalDebounce]
  rw [renderEffect_pending, finalDebounce_eq rest t0 c0]
  by_cases hc : jsTrim (lastEdit t0 c0 rest).2 = "" <;> simp [flushDebounce, hc]

/-- Witness for C3: three nonempty edits 500 ms and 400 ms apart issue
exactly one render, 800 ms after the last edit and with its text. -/
theorem C3_witness :
    runEdits [(0, "a"), (500, "b"), (900, "c")] = [(1700, "c")] := by
  have h := C3_debounce_amended 0 "a" [(500, "b"), (900, "c")] (by decide)
  exact h.trans (by decide)

/-- C4: with the app connected, the document still flagged as
agent-originated and a fingerprint different from the last one sent,
re-scheduling replaces any pending 3 s timer (so only one callback fires),
the fire dispatches exactly one fix-request message and records the
fingerprint, a second fire for the identical error dispatches nothing, and
a fire after a manual edit (which clears the flag) dispatches nothing. -/
theorem C4_auto_fix_once (s : AppState) (errorMsg code : String)
    (hflag : s.isToolInputError = true)
    (hnew : s.errorAlreadySent ≠ some (errorKey errorMsg code)) :
    (∀ (p : Option (String × String)) (m1 c1 : String),
        scheduleErrorAutoFix (scheduleErrorAutoFix p m1 c1) errorMsg code
          = some (errorMsg, code))
    ∧ (autoFixFire true s errorMsg code).2 = some (fixRequestText errorMsg code)
    ∧ (autoFixFire true s errorMsg code).1.errorAlreadySent
        = some (errorKey errorMsg code)
    ∧ (autoFixFire true (autoFixFire true s errorMsg code).1 errorMsg code).2 = none
    ∧ ∀ newCode : String,
        (autoFixFire true (handleCodeChange s newCode) errorMsg code).2 = none := by
  refine ⟨fun p m1 c1 => rfl, ?_, ?_, ?_, ?_⟩
  · simp [autoFixFire, hflag, hnew]
  · simp [autoFixFire, hflag, hnew]
  · simp [autoFixFire, hflag, hnew]
  · intro newCode
    simp [autoFixFire, handleCodeChange]

/-- Witness for C4 at a concrete agent-originated state with no fingerprint
sent yet: the first fire dispatches the fix request, the second identical
one dispatches nothing. -/
theorem C4_witness :
    (autoFixFire true ⟨"@startuml", none, false, [], [], 0, true, none⟩
        "PlantUML syntax error — the diagram SVG shows an error" "@startuml").2
      = some (fixRequestText
          "PlantUML syntax error — the diagram SVG shows an error" "@startuml")
    ∧ (autoFixFire true
        (autoFixFire true ⟨"@startuml", none, false, [], [], 0, true, none⟩
          "PlantUML syntax error — the diagram SVG shows an error" "@startuml").1
        "PlantUML syntax error — the diagram SVG shows an error" "@startuml").2
      = none := by
  have h := C4_auto_fix_once ⟨"@startuml", none, false, [], [], 0, true, none⟩
    "PlantUML syntax error — the diagram SVG shows an error" "@startuml"
    (by decide) (by decide)
  exact ⟨h.2.1, h.2.2.2.1⟩

/-- C5: `ChangeLog.add` coalesces adjacent same-tag entries — an `edit`
added right after another `edit` leaves the log as if only the latest edit
had been added, a `typeChange` added after another `typeChange` replaces it
while keeping the earlier `oldType`, and the example chain
`typeChange sequence→class` then `class→state` serializes to the single
line `1. Changed diagram type from sequence to state`. -/
theorem C5_changelog_coalesces (l : List Change) (s1 s2 a b c d : String) :
    ChangeLog.add (ChangeLog.add l (Change.edit s1)) (Change.edit s2)
      = ChangeLog.add l (Change.edit s2)
    ∧ ChangeLog.add (l ++ [Change.typeChange a b]) (Change.typeChange c d)
      = l ++ [Change.typeChange a d]
    ∧ ChangeLog.serialize
        (ChangeLog.add (ChangeLog.add [] (Change.typeChange "sequence" "class"))
          (Change.typeChange "class" "state"))
      = "1. Changed diagram type from sequence to state" := by
  refine ⟨?_, ?_, by decide⟩
  · match hl : l.getLast? with
    | none =>
        have : l = [] := List.getLast?_eq_none_iff.mp hl
        subst this
        simp [ChangeLog.add]
    | some (Change.edit x) =>
        simp [ChangeLog.add, hl, List.getLast?_concat, List.dropLast_concat]
    | some (Change.typeChange x y) =>
        simp [ChangeLog.add, hl, List.getLast?_concat, List.dropLast_concat]
  · simp [ChangeLog.add, List.getLast?_concat, List.dropLast_concat]

/-- C6 counterexample: the `ontoolinput` handler does not touch
`selectedElements` — starting from a state with `Alice` selected, the
selection after a wholesale tool-driven document replacement is still
`[Alice]`, not empty. -/
theorem C6_counterexample :
    (ontoolinput ⟨"old code", none, false, ["Alice"], [], 0, false, none⟩
        "@startuml\nBob -> Carol\n@enduml").selectedElements = ["Alice"]
    ∧ ["Alice"] ≠ ([] : List String) := by
  constructor
  · rfl
  · decide

/-- C6 (amended): exiting selection mode empties the Selection
(`toggleSelectionMode` reports the empty selection when leaving the mode);
the tool-input handler replaces the document, stops streaming and clears
the change log, but leaves the selection unchanged. -/
theorem C6_amended (s : AppState) (sel : List String) (code : String) :
    toggleSelectionMode true sel = (false, [])
    ∧ (ontoolinput s code).selectedElements = s.selectedElements
    ∧ (ontoolinput s code).plantUmlCode = code
    ∧ (ontoolinput s code).streaming = false
    ∧ (ontoolinput s code).changeLog = [] := by
  refine ⟨rfl, rfl, rfl, rfl, rfl⟩

/-- C7 counterexample: `fitToView` does not clamp its result from below.
From a legal state with scale 1, fitting an 8000×8000 diagram into a
100×100 viewport (both guards passed: nonzero natural size and viewport
size) yields scale (100−48)/8000 = 13/2000 < 0.05, outside [0.05, 5]. -/
theorem C7_counterexample :
    (1 / 20 : ℚ) ≤ (1 : ℚ) ∧ (1 : ℚ) ≤ 5
    ∧ (fitToView ⟨1, 0, 0⟩ 100 100 8000 8000).scale = 13 / 2000
    ∧ ¬ ((1 / 20 : ℚ) ≤ (fitToView ⟨1, 0, 0⟩ 100 100 8000 8000).scale) := by
  have hs : (fitToView ⟨1, 0, 0⟩ 100 100 8000 8000).scale = 13 / 2000 := by
    simp only [fitToView]
    norm_num
  refine ⟨by norm_num, by norm_num, hs, ?_⟩
  rw [hs]; norm_num

/-- C7 (amended): the wheel-zoom and the zoom-button paths clamp the scale
into [0.05, 5] from any starting scale; `fitToView` never scales above the
larger of the previous scale and 1 (it caps at natural size), but its
result is not clamped from below and can drop under 0.05. -/
theorem C7_amended (v : Viewport) (factor cx cy deltaY mx my vw vh w h : ℚ) :
    ((1 / 20 : ℚ) ≤ (zoomFromCenter v factor cx cy).scale
      ∧ (zoomFromCenter v factor cx cy).scale ≤ 5)
    ∧ ((1 / 20 : ℚ) ≤ (handleWheel v deltaY mx my).scale
      ∧ (handleWheel v deltaY mx my).scale ≤ 5)
    ∧ (fitToView v vw vh w h).scale ≤ max v.scale 1 := by
  have hclamp : ∀ x : ℚ, (1 / 20 : ℚ) ≤ clampScale x ∧ clampScale x ≤ 5 := by
    intro x
    unfold clampScale
    exact ⟨le_max_left _ _, max_le (by norm_num) (min_le_left _ _)⟩
  refine ⟨?_, ?_, ?_⟩
  · have hz : (zoomFromCenter v factor cx cy).scale = clampScale (v.scale * factor) := rfl
    rw [hz]; exact hclamp _
  · have hw : (handleWheel v deltaY mx my).scale
        = clampScale (v.scale * (if deltaY > 0 then (9 : ℚ) / 10 else 11 / 10)) := rfl
    rw [hw]; exact hclamp _
  · unfold fitToView
    by_cases h1 : w = 0 ∨ h = 0
    · simp [h1, le_max_left]
    · by_cases h2 : vw = 0 ∨ vh = 0
      · simp [h1, h2, le_max_left]
      · simp only [h1, h2, if_false]
        exact le_trans (min_le_right _ _) (le_max_right _ _)

/-- C8: a streaming render whose right-trimmed input does not end in a
recognized closing marker sends the trimmed input with a synthesized
closing tag appended — `@end` paired with the first `@start` opener's
captured kind, or the generic `@enduml` when no opener is found. -/
theorem C8_stream_repair (code : String)
    (h : endsWithCloseMarker (jsTrimEnd code) = false) :
    (findStart (jsTrimEnd code).data = none →
      streamRepair code = jsTrimEnd code ++ "\n" ++ "@enduml")
    ∧ ∀ w : List Char, findStart (jsTrimEnd code).data = some w →
      streamRepair code = jsTrimEnd code ++ "\n" ++ ("@end" ++ String.mk w) := by
  constructor
  · intro hnone
    simp [streamRepair, h, hnone, String.toList]
  · intro w hw
    simp [streamRepair, h, hw, String.toList]

/-- Witness for C8: input containing the opener `@startsequence` and no
closing marker gets `@endsequence` appended, not the generic `@enduml`. -/
theorem C8_witness :
    streamRepair "@startsequence\nAlice -> Bob"
      = "@startsequence\nAlice -> Bob\n@endsequence" := by
  have h := (C8_stream_repair "@startsequence\nAlice -> Bob" (by decide)).2
    "sequence".data (by decide)
  exact h.trans (by decide)

/-- C9: with a connected app, `sendToAgent` clears the change log and never
propagates a channel failure to the caller, whether the send over the agent
channel succeeded or threw. -/
theorem C9_send_clears_log (channelThrows : Bool) (log : List Change)
    (code : String) (sel : List String) (diagramType : String) :
    (sendToAgent true channelThrows log code sel diagramType).log = []
    ∧ (sendToAgent true channelThrows log code sel diagramType).raised = false := by
  constructor <;> simp [sendToAgent]

/-- C10: an input whose trimmed form is empty makes `renderPlantUml` reject
with `Empty PlantUML code` before any request URL is built, and for no such
input does the call produce a request (hence an SVG). -/
theorem C10_empty_input_rejected (encode : String → String) (code : String)
    (h : jsTrim code = "") :
    renderPlantUmlRequest encode code = Except.error "Empty PlantUML code"
    ∧ ∀ url : String, renderPlantUmlRequest encode code ≠ Except.ok url := by
  constructor
  · simp [renderPlantUmlRequest, h]
  · intro url
    simp [renderPlantUmlRequest, h]

/-- Witness for C10: whitespace-only input is rejected. -/
theorem C10_witness :
    renderPlantUmlRequest id "  \n\t " = Except.error "Empty PlantUML code" :=
  (C10_empty_input_rejected id "  \n\t " (by decide)).1

end PlantUml
